import Mathlib

/-!
Verification development for a Neo4j-backed document-management service.

The repository contains two variants of the same application:

* `src/main.py` — FastAPI endpoints issuing parameterized Cypher queries
  through `Neo4jConnection` (`execute_query` / `execute_write_query`).
* `src/services/services.py` + `src/models/models.py` — a neomodel (OGM)
  service layer (`DocumentService.create_complete_document_structure`,
  `DocumentService.get_document_with_relations`).

Both are embedded below over an explicit property-graph state.  Nodes are
stored per label in lists (most recently created first); relationships are
typed, directed edges whose endpoints are identified by (label, unique key),
which is faithful because every node kind involved carries a declared unique
key (`create_constraints_and_indexes` in `src/main.py` and the
`unique_index=True` properties in `src/models/models.py`).

The Neo4j backend itself is external to the repository; its behaviour is
embedded according to standard Cypher semantics as described by the spec's
query contract: a `MATCH` that finds no node yields zero rows (so a
subsequent `CREATE` in the same query simply does not run, and the query
completes without error), and a `CREATE` violating a uniqueness constraint
fails the whole transaction, leaving the store unchanged.

Two Python-level behaviours of `src/main.py` are embedded explicitly because
they decide claims:

* `Neo4jConnection.execute_write_query` returns the raw driver `Result`
  object (never converted to a list).  That object defines neither
  `__bool__` nor `__len__`, so `if not result:` is always `False` and
  `result[0]` raises `TypeError`.  Consequently `update_document` can never
  reach its 404 branch, and `delete_document` always raises after its write
  has been committed.
* `fastapi.HTTPException` is a subclass of `Exception`, so an
  `HTTPException(404)` raised inside a `try: ... except Exception as e:`
  block is caught and re-raised as the 400 error of the handler.
-/

/-- Node labels of the graph store used by the embedded queries. -/
inductive Label where
  | user
  | folder
  | document
  | fileMetadata
  | version
  | session
  | classifier
deriving DecidableEq, Repr

/-- Relationship types appearing in the embedded queries and OGM models. -/
inductive RelType where
  | createdBy
  | lastModifiedBy
  | storedIn
  | hasMetadata
  | hasVersion
  | inSession
deriving DecidableEq, Repr

/-- A reference to a node, by label and by the node's declared unique key. -/
structure NodeRef where
  label : Label
  key : String
deriving DecidableEq, Repr

/-- A typed, directed relationship between two nodes. -/
structure GraphRel where
  relType : RelType
  src : NodeRef
  dst : NodeRef
deriving DecidableEq, Repr

/-- JSON-like values, used to embed the Python dicts returned by the
composer endpoints.  Objects are association lists so that literal field
names such as the one holding the download URL are preserved verbatim. -/
inductive JVal where
  | null : JVal
  | str : String → JVal
  | int : Int → JVal
  | obj : List (String × JVal) → JVal

/-- An HTTP-level outcome: a 200 body, or an error status with a detail
message (mirroring FastAPI's `HTTPException`). -/
inductive Response (α : Type) where
  | ok : α → Response α
  | error : Nat → String → Response α
deriving DecidableEq, Repr

/-- HTTP status code of a response (FastAPI returns 200 for a plain value). -/
def Response.status : Response α → Nat
  | .ok _ => 200
  | .error s _ => s

/-- True on the 200 branch. -/
def Response.isOk : Response α → Bool
  | .ok _ => true
  | .error _ _ => false

/-- User node as created by `POST /users/` in `src/main.py`
(`UserCreate`: id, email, displayName). -/
structure ApiUser where
  id : String
  email : String
  displayName : String
deriving DecidableEq, Repr

/-- Folder node as created by `POST /folders/` in `src/main.py`. -/
structure ApiFolder where
  id : String
  name : String
  path : String
  driveType : String
  driveId : String
  siteId : String
deriving DecidableEq, Repr

/-- Document node properties as written by `create_document` in
`src/main.py` (`DocumentCreate`); datetimes are embedded as integer
timestamps, ordered chronologically like Neo4j temporal values. -/
structure ApiDocument where
  id : String
  name : String
  label : String
  size : Int
  file_name : Option String
  source : String
  type : String
  createdDateTime : Int
  lastModifiedDateTime : Int
  webUrl : String
  downloadUrl : String
  driveId : String
  siteId : String
  status : String
  description : Option String
  parentReference_id : String
  createdBy : String
  lastModifiedBy : String
deriving DecidableEq, Repr

/-- Session node properties as written by `create_session` in `src/main.py`. -/
structure ApiSession where
  sessionId : String
  sessionName : String
  createdAt : Int
  createdBy : String
  fileCount : Int
  completedAt : Option Int
  status : String
  warnings : Int
  rowCount : Int
deriving DecidableEq, Repr

/-- Classifier node properties as written by `create_classifier` in
`src/main.py`. -/
structure ApiClassifier where
  id : String
  name : String
  isHierarchy : Bool
  parentId : Option String
  prompt : String
  description : String
deriving DecidableEq, Repr

/-- FileMetadata node properties as written by `create_file_metadata` in
`src/main.py`. -/
structure ApiFileMetadata where
  documentId : String
  mimeType : String
  quickXorHash : String
  sharedScope : String
  createdDateTime : Int
  lastModifiedDateTime : Int
deriving DecidableEq, Repr

/-- Version node properties as written by `create_version` in `src/main.py`. -/
structure ApiVersion where
  documentId : String
  eTag : String
  cTag : String
  timestamp : Int
  versionNumber : Int
deriving DecidableEq, Repr

/-- The graph-store state seen by the Cypher variant (`src/main.py`):
one list of nodes per label (most recently created first) and the list of
typed relationships. -/
structure ApiStore where
  users : List ApiUser
  folders : List ApiFolder
  documents : List ApiDocument
  sessions : List ApiSession
  classifiers : List ApiClassifier
  fileMetadatas : List ApiFileMetadata
  versions : List ApiVersion
  rels : List GraphRel
deriving DecidableEq, Repr

/-- The empty graph store. -/
def ApiStore.empty : ApiStore :=
  ⟨[], [], [], [], [], [], [], []⟩

/-- Cypher `MATCH (u:User {id: $id})` — first matching node, if any. -/
def ApiStore.findUser (s : ApiStore) (id : String) : Option ApiUser :=
  s.users.find? (fun u => u.id == id)

/-- Cypher `MATCH (f:Folder {id: $id})`. -/
def ApiStore.findFolder (s : ApiStore) (id : String) : Option ApiFolder :=
  s.folders.find? (fun f => f.id == id)

/-- Cypher `MATCH (d:Document {id: $id})`. -/
def ApiStore.findDocument (s : ApiStore) (id : String) : Option ApiDocument :=
  s.documents.find? (fun d => d.id == id)

/-- Cypher `MATCH (s:Session {sessionId: $sessionId})`. -/
def ApiStore.findSession (s : ApiStore) (id : String) : Option ApiSession :=
  s.sessions.find? (fun x => x.sessionId == id)

/-- Cypher `MATCH (c:Classifier {id: $id})`. -/
def ApiStore.findClassifier (s : ApiStore) (id : String) : Option ApiClassifier :=
  s.classifiers.find? (fun c => c.id == id)

/-- First relationship of the given type leaving `src`, following the
single row the export queries consume. -/
def ApiStore.relFrom (s : ApiStore) (src : NodeRef) (t : RelType) : Option NodeRef :=
  (s.rels.find? (fun r => r.src == src && r.relType == t)).map (·.dst)

/-- Endpoint `POST /users/` (`create_user` in `src/main.py`): a single
`CREATE (u:User {...})` query.  The uniqueness constraint `user_id_unique`
(declared in `create_constraints_and_indexes`) makes the transaction fail on
a duplicate id; the handler's `except` maps that to a 400 `HTTPException`,
otherwise the request body is echoed with status 200. -/
def create_user (s : ApiStore) (u : ApiUser) : Response ApiUser × ApiStore :=
  if s.users.any (fun x => x.id == u.id) then
    (.error 400 "Error creating user: ConstraintError", s)
  else
    (.ok u, { s with users := u :: s.users })

/-- Endpoint `GET /users/{user_id}` (`get_user` in `src/main.py`):
404 when no node matches, otherwise the node's properties. -/
def get_user (s : ApiStore) (id : String) : Response ApiUser :=
  match s.findUser id with
  | none => .error 404 "User not found"
  | some u => .ok u

/-- Endpoint `POST /folders/` (`create_folder` in `src/main.py`), with the
`folder_id_unique` constraint enforced by the store. -/
def create_folder (s : ApiStore) (f : ApiFolder) : Response ApiFolder × ApiStore :=
  if s.folders.any (fun x => x.id == f.id) then
    (.error 400 "Error creating folder: ConstraintError", s)
  else
    (.ok f, { s with folders := f :: s.folders })

/-- Endpoint `GET /folders/{folder_id}` (`get_folder` in `src/main.py`). -/
def get_folder (s : ApiStore) (id : String) : Response ApiFolder :=
  match s.findFolder id with
  | none => .error 404 "Folder not found"
  | some f => .ok f

/-- Endpoint `POST /classifiers/` (`create_classifier` in `src/main.py`),
with the `classifier_id_unique` constraint enforced by the store. -/
def create_classifier (s : ApiStore) (c : ApiClassifier) :
    Response ApiClassifier × ApiStore :=
  if s.classifiers.any (fun x => x.id == c.id) then
    (.error 400 "Error creating classifier: ConstraintError", s)
  else
    (.ok c, { s with classifiers := c :: s.classifiers })

/-- Endpoint `POST /sessions/` (`create_session` in `src/main.py`): the query
first does `MATCH (u:User {displayName: $createdBy})`.  When no user matches,
the query yields zero rows, the `CREATE` never runs, and the handler still
returns 200 with the request body; when a user matches, the `CREATE` is
subject to the `session_id_unique` constraint, and on success the session
node plus its `CREATED_BY` relationship to the matched user are added. -/
def create_session (s : ApiStore) (x : ApiSession) :
    Response ApiSession × ApiStore :=
  match s.users.find? (fun u => u.displayName == x.createdBy) with
  | none => (.ok x, s)
  | some u =>
    if s.sessions.any (fun y => y.sessionId == x.sessionId) then
      (.error 400 "Error creating session: ConstraintError", s)
    else
      (.ok x,
        { s with
          sessions := x :: s.sessions
          rels := ⟨.createdBy, ⟨.session, x.sessionId⟩, ⟨.user, u.id⟩⟩ :: s.rels })

/-- Endpoint `POST /documents/` (`create_document` in `src/main.py`): the
query is `MATCH (u:User {id: $createdBy}) MATCH (f:Folder {id:
$parentReference_id}) CREATE (d:Document {...}) CREATE (d)-[:CREATED_BY]->(u)
CREATE (d)-[:STORED_IN]->(f)`.  If either `MATCH` finds nothing the query
yields zero rows, nothing is created, no error is raised, and the handler
returns 200 echoing the payload.  Otherwise the `CREATE` is subject to the
`document_id_unique` constraint; on success the document node (including the
`lastModifiedBy` string property) and exactly the two relationships are
added. -/
def create_document (s : ApiStore) (d : ApiDocument) :
    Response ApiDocument × ApiStore :=
  match s.findUser d.createdBy, s.findFolder d.parentReference_id with
  | some u, some f =>
    if s.documents.any (fun x => x.id == d.id) then
      (.error 400 "Error creating document: ConstraintError", s)
    else
      (.ok d,
        { s with
          documents := d :: s.documents
          rels :=
            ⟨.createdBy, ⟨.document, d.id⟩, ⟨.user, u.id⟩⟩ ::
            ⟨.storedIn, ⟨.document, d.id⟩, ⟨.folder, f.id⟩⟩ :: s.rels })
  | _, _ => (.ok d, s)

/-- Endpoint `GET /documents/{document_id}` (`get_document` in
`src/main.py`). -/
def get_document (s : ApiStore) (id : String) : Response ApiDocument :=
  match s.findDocument id with
  | none => .error 404 "Document not found"
  | some d => .ok d

/-- Descending order on `createdDateTime`, the `ORDER BY d.createdDateTime
DESC` of `list_documents` in `src/main.py`. -/
def docDesc (a b : ApiDocument) : Prop :=
  b.createdDateTime ≤ a.createdDateTime

instance : DecidableRel docDesc := fun a b =>
  inferInstanceAs (Decidable (b.createdDateTime ≤ a.createdDateTime))

instance : IsTotal ApiDocument docDesc :=
  ⟨fun a b => le_total b.createdDateTime a.createdDateTime⟩

instance : IsTrans ApiDocument docDesc :=
  ⟨fun _ _ _ h h' => le_trans h' h⟩

/-- Endpoint `GET /documents/` (`list_documents` in `src/main.py`):
`limit` is validated by FastAPI as `Query(10, ge=1, le=100)` and `offset` as
`Query(0, ge=0)` (an out-of-range value is rejected with a 422 validation
error before the handler runs); the query returns documents ordered by
`createdDateTime DESC` with `SKIP $offset LIMIT $limit`. -/
def list_documents (s : ApiStore) (limit offset : Int) :
    Response (List ApiDocument) :=
  if 1 ≤ limit ∧ limit ≤ 100 ∧ 0 ≤ offset then
    .ok ((((s.documents.insertionSort docDesc).drop offset.toNat).take limit.toNat))
  else
    .error 422 "Input validation error"

/-- Endpoint `PUT /documents/{document_id}` (`update_document` in
`src/main.py`): the query `MATCH (d:Document {id: $document_id}) SET d +=
$properties` merges every payload property except `id` (popped before the
call) into each matching node; when no node matches, nothing changes.
`execute_write_query` hands back the raw driver `Result`, which is always
truthy, so the `if not result: raise HTTPException(404)` branch is dead code
and the handler always returns 200 echoing the payload. -/
def update_document (s : ApiStore) (id : String) (d : ApiDocument) :
    Response ApiDocument × ApiStore :=
  (.ok d,
    { s with
      documents := s.documents.map (fun x =>
        if x.id == id then { d with id := x.id } else x) })

/-- Incidence of a relationship on the document node with the given id. -/
def touchesDocument (r : GraphRel) (id : String) : Prop :=
  r.src = ⟨.document, id⟩ ∨ r.dst = ⟨.document, id⟩

instance (r : GraphRel) (id : String) : Decidable (touchesDocument r id) :=
  inferInstanceAs (Decidable (_ ∨ _))

/-- Endpoint `DELETE /documents/{document_id}` (`delete_document` in
`src/main.py`): the committed write is `MATCH (d:Document {id:
$document_id}) DETACH DELETE d`, which removes every matching document node
and every relationship incident on it, and nothing else.  After the commit
the handler evaluates `result[0]` on the raw driver `Result`, which raises
`TypeError`, so the response is an unhandled 500 — the store effect below is
nevertheless the committed one. -/
def delete_document (s : ApiStore) (id : String) : Response Unit × ApiStore :=
  (.error 500 "TypeError: Result object is not subscriptable",
    { s with
      documents := s.documents.filter (fun d => ¬ d.id = id)
      rels := s.rels.filter (fun r => ¬ touchesDocument r id) })

/-- JVal for an optional string property (Python `None` → JSON null). -/
def optStr : Option String → JVal
  | none => .null
  | some s => .str s

/-- Endpoint `GET /export/document/{document_id}` (`get_document_json` in
`src/main.py`).  The query `MATCH (d:Document {id: $document_id}) MATCH
(d)-[:HAS_METADATA]->(fm) MATCH (d)-[:HAS_VERSION]->(v) MATCH
(d)-[:CREATED_BY]->(u) MATCH (d)-[:STORED_IN]->(f)` yields a row only when
the document and all four related nodes exist; on an empty result the
handler raises `HTTPException(404, "Document not found")` *inside* the `try`
block, so the `except Exception` clause catches it and re-raises it as a 400
whose detail wraps `str(e)`.  On success the handler builds the flat dict
below (note `type` is sourced from the metadata's `mimeType`,
`lastModifiedDate` is hard-coded `None`, and the download URL is emitted
under the literal key with the `@microsoft.graph.` prefix). -/
def get_document_json (s : ApiStore) (id : String) :
    Response (List (String × JVal)) :=
  match s.findDocument id with
  | none => .error 400 "Error retrieving document JSON: 404: Document not found"
  | some d =>
    let dref : NodeRef := ⟨.document, d.id⟩
    match (s.relFrom dref .hasMetadata).bind
            (fun n => s.fileMetadatas.find? (fun x => x.documentId == n.key)),
          (s.relFrom dref .hasVersion).bind
            (fun n => s.versions.find? (fun x => x.documentId == n.key)),
          (s.relFrom dref .createdBy).bind (fun n => s.findUser n.key),
          (s.relFrom dref .storedIn).bind (fun n => s.findFolder n.key) with
    | some fm, some v, some u, some f =>
      .ok
        [("name", .str d.name),
         ("source", .str d.source),
         ("file_name", optStr d.file_name),
         ("lastModifiedDate", .null),
         ("size", .int d.size),
         ("id", .str d.id),
         ("site_id", .str d.siteId),
         ("drive_id", .str d.driveId),
         ("label", .str d.label),
         ("type", .str fm.mimeType),
         ("@microsoft.graph.downloadUrl", .str d.downloadUrl),
         ("createdBy", .obj [("user", .obj
            [("email", .str u.email), ("id", .str u.id),
             ("displayName", .str u.displayName)])]),
         ("createdDateTime", .int d.createdDateTime),
         ("eTag", .str v.eTag),
         ("lastModifiedBy", .obj [("user", .obj
            [("email", .str u.email), ("id", .str u.id),
             ("displayName", .str u.displayName)])]),
         ("lastModifiedDateTime", .int d.lastModifiedDateTime),
         ("parentReference", .obj
            [("driveType", .str f.driveType), ("driveId", .str f.driveId),
             ("id", .str f.id), ("name", .str f.name),
             ("path", .str f.path), ("siteId", .str f.siteId)]),
         ("webUrl", .str d.webUrl),
         ("cTag", .str v.cTag),
         ("file", .obj
            [("hashes", .obj [("quickXorHash", .str fm.quickXorHash)]),
             ("mimeType", .str fm.mimeType)]),
         ("fileSystemInfo", .obj
            [("createdDateTime", .int fm.createdDateTime),
             ("lastModifiedDateTime", .int fm.lastModifiedDateTime)]),
         ("shared", .obj [("scope", .str fm.sharedScope)]),
         ("status", .str d.status)]
    | _, _, _, _ =>
      .error 400 "Error retrieving document JSON: 404: Document not found"

/-- User node of the neomodel models (`src/models/models.py`), keyed by
`uid`. -/
structure OgmUser where
  uid : String
  email : String
  displayName : String
deriving DecidableEq, Repr

/-- Folder node of the neomodel models, keyed by `uid`. -/
structure OgmFolder where
  uid : String
  name : String
  path : String
  driveType : String
  driveId : String
  siteId : String
deriving DecidableEq, Repr

/-- Session node of the neomodel models (`createdAt`/`completedAt` are
`StringProperty`). -/
structure OgmSession where
  sessionId : String
  sessionName : String
  createdAt : String
  createdBy : String
  fileCount : Int
  completedAt : Option String
  status : String
  warnings : Int
  rowCount : Int
deriving DecidableEq, Repr

/-- Document node of the neomodel models: keyed by `uid`, datetimes are
`StringProperty`, and it carries a required `version` string. -/
structure OgmDocument where
  uid : String
  name : String
  label : String
  size : Int
  file_name : Option String
  source : String
  type : String
  createdDateTime : String
  lastModifiedDateTime : String
  webUrl : String
  downloadUrl : String
  driveId : String
  siteId : String
  status : String
  description : Option String
  version : String
deriving DecidableEq, Repr

/-- FileMetadata node of the neomodel models, keyed by `documentId`. -/
structure OgmFileMetadata where
  documentId : String
  mimeType : String
  quickXorHash : String
  sharedScope : String
  createdDateTime : String
  lastModifiedDateTime : String
deriving DecidableEq, Repr

/-- Version node of the neomodel models, keyed by `documentId`. -/
structure OgmVersion where
  documentId : String
  eTag : String
  cTag : String
  timestamp : String
  versionNumber : Int
deriving DecidableEq, Repr

/-- The flat aggregate payload consumed by
`DocumentService.create_complete_document_structure`: document fields plus
prefixed sub-fields for the two users, the folder, the session, the file
metadata and the version, exactly the keys the function reads from `data`. -/
structure FlatData where
  id : String
  name : String
  label : String
  size : Int
  file_name : Option String
  source : String
  type : String
  createdDateTime : String
  lastModifiedDateTime : String
  webUrl : String
  downloadUrl : String
  driveId : String
  siteId : String
  status : String
  description : Option String
  version : String
  createdBy_id : String
  createdBy_email : String
  createdBy_displayName : String
  lastModifiedBy_id : String
  lastModifiedBy_email : String
  lastModifiedBy_displayName : String
  parentReference_id : String
  parentReference_name : String
  parentReference_path : String
  parentReference_driveType : String
  parentReference_driveId : String
  parentReference_siteId : String
  sessionId : String
  sessionName : String
  session_createdAt : String
  session_createdBy : String
  session_fileCount : Int
  session_completedAt : Option String
  session_status : String
  session_warnings : Int
  session_rowCount : Int
  file_documentId : String
  file_mimeType : String
  file_quickXorHash : String
  file_sharedScope : String
  file_createdDateTime : String
  file_lastModifiedDateTime : String
  version_documentId : String
  version_eTag : String
  version_cTag : String
  version_timestamp : String
  version_versionNumber : Int
deriving DecidableEq, Repr

/-- The graph-store state seen by the OGM variant. -/
structure OgmStore where
  users : List OgmUser
  folders : List OgmFolder
  documents : List OgmDocument
  sessions : List OgmSession
  fileMetadatas : List OgmFileMetadata
  versions : List OgmVersion
  rels : List GraphRel
deriving DecidableEq, Repr

/-- The empty OGM store. -/
def OgmStore.empty : OgmStore :=
  ⟨[], [], [], [], [], [], []⟩

/-- neomodel `User.nodes.get_or_none(uid=...)`. -/
def OgmStore.findUser (s : OgmStore) (uid : String) : Option OgmUser :=
  s.users.find? (fun u => u.uid == uid)

/-- neomodel `Folder.nodes.get_or_none(uid=...)`. -/
def OgmStore.findFolder (s : OgmStore) (uid : String) : Option OgmFolder :=
  s.folders.find? (fun f => f.uid == uid)

/-- neomodel `Document.nodes.get_or_none(uid=...)`. -/
def OgmStore.findDocument (s : OgmStore) (uid : String) : Option OgmDocument :=
  s.documents.find? (fun d => d.uid == uid)

/-- neomodel `Session.nodes.get_or_none(sessionId=...)`. -/
def OgmStore.findSession (s : OgmStore) (id : String) : Option OgmSession :=
  s.sessions.find? (fun x => x.sessionId == id)

/-- The `User.nodes.get_or_none` / create-and-save upsert performed for the
creating and last-modifying users in `create_complete_document_structure`
(steps 1–2 of Decompose). -/
def upsertUser (s : OgmStore) (uid email displayName : String) : OgmStore :=
  match s.findUser uid with
  | some _ => s
  | none => { s with users := ⟨uid, email, displayName⟩ :: s.users }

/-- The Folder upsert of `create_complete_document_structure` (Decompose
step 2 for the parent folder). -/
def upsertFolder (s : OgmStore) (uid name path driveType driveId siteId : String) :
    OgmStore :=
  match s.findFolder uid with
  | some _ => s
  | none =>
    { s with folders := ⟨uid, name, path, driveType, driveId, siteId⟩ :: s.folders }

/-- The Session upsert of `create_complete_document_structure`. -/
def upsertSession (s : OgmStore) (x : OgmSession) : OgmStore :=
  match s.findSession x.sessionId with
  | some _ => s
  | none => { s with sessions := x :: s.sessions }

/-- `DocumentService.create_complete_document_structure` from
`src/services/services.py`: upsert the two users, the folder and the
session; then create the Document, FileMetadata and Version nodes (each
`save` is subject to the node's `unique_index` constraint and raises on a
duplicate key, which the function propagates); finally `connect` the six
relationships from the document.  Relationship `connect` targets are
recorded by the unique key of the node object being connected. -/
def create_complete_document_structure (s : OgmStore) (d : FlatData) :
    Except String OgmStore :=
  let s1 := upsertUser s d.createdBy_id d.createdBy_email d.createdBy_displayName
  let s2 := upsertUser s1 d.lastModifiedBy_id d.lastModifiedBy_email
    d.lastModifiedBy_displayName
  let s3 := upsertFolder s2 d.parentReference_id d.parentReference_name
    d.parentReference_path d.parentReference_driveType d.parentReference_driveId
    d.parentReference_siteId
  let s4 := upsertSession s3
    ⟨d.sessionId, d.sessionName, d.session_createdAt, d.session_createdBy,
     d.session_fileCount, d.session_completedAt, d.session_status,
     d.session_warnings, d.session_rowCount⟩
  if s4.documents.any (fun x => x.uid == d.id) then
    .error "UniqueProperty: Document.uid"
  else if s4.fileMetadatas.any (fun x => x.documentId == d.file_documentId) then
    .error "UniqueProperty: FileMetadata.documentId"
  else if s4.versions.any (fun x => x.documentId == d.version_documentId) then
    .error "UniqueProperty: Version.documentId"
  else
    .ok
      { s4 with
        documents :=
          ⟨d.id, d.name, d.label, d.size, d.file_name, d.source, d.type,
           d.createdDateTime, d.lastModifiedDateTime, d.webUrl, d.downloadUrl,
           d.driveId, d.siteId, d.status, d.description, d.version⟩ ::
          s4.documents
        fileMetadatas :=
          ⟨d.file_documentId, d.file_mimeType, d.file_quickXorHash,
           d.file_sharedScope, d.file_createdDateTime,
           d.file_lastModifiedDateTime⟩ :: s4.fileMetadatas
        versions :=
          ⟨d.version_documentId, d.version_eTag, d.version_cTag,
           d.version_timestamp, d.version_versionNumber⟩ :: s4.versions
        rels :=
          ⟨.inSession, ⟨.document, d.id⟩, ⟨.session, d.sessionId⟩⟩ ::
          ⟨.hasVersion, ⟨.document, d.id⟩, ⟨.version, d.version_documentId⟩⟩ ::
          ⟨.hasMetadata, ⟨.document, d.id⟩, ⟨.fileMetadata, d.file_documentId⟩⟩ ::
          ⟨.storedIn, ⟨.document, d.id⟩, ⟨.folder, d.parentReference_id⟩⟩ ::
          ⟨.lastModifiedBy, ⟨.document, d.id⟩, ⟨.user, d.lastModifiedBy_id⟩⟩ ::
          ⟨.createdBy, ⟨.document, d.id⟩, ⟨.user, d.createdBy_id⟩⟩ ::
          s4.rels }

/-- neomodel `document.<relation>.single()`: the node at the end of the
first relationship of the given type leaving the document, or `None`. -/
def OgmStore.relFrom (s : OgmStore) (src : NodeRef) (t : RelType) :
    Option NodeRef :=
  (s.rels.find? (fun r => r.src == src && r.relType == t)).map (·.dst)

/-- The creating or last-modifying user reached from a document node (used
by `get_document_with_relations` via `.single()`). -/
def relatedUser (s : OgmStore) (src : NodeRef) (t : RelType) : Option OgmUser :=
  (s.relFrom src t).bind (fun n => s.findUser n.key)

/-- The folder reached from a document node via `STORED_IN`. -/
def relatedFolder (s : OgmStore) (src : NodeRef) : Option OgmFolder :=
  (s.relFrom src .storedIn).bind (fun n => s.findFolder n.key)

/-- The file metadata reached from a document node via `HAS_METADATA`. -/
def relatedMetadata (s : OgmStore) (src : NodeRef) : Option OgmFileMetadata :=
  (s.relFrom src .hasMetadata).bind
    (fun n => s.fileMetadatas.find? (fun x => x.documentId == n.key))

/-- The version node reached from a document node via `HAS_VERSION`. -/
def relatedVersion (s : OgmStore) (src : NodeRef) : Option OgmVersion :=
  (s.relFrom src .hasVersion).bind
    (fun n => s.versions.find? (fun x => x.documentId == n.key))

/-- `DocumentService.get_document_with_relations` from
`src/services/services.py`: `None` when the document is absent, otherwise
the response dict, in which every relationship target is independently
optional — a missing target yields `None` for the corresponding nested
field (`createdBy` / `lastModifiedBy` / `parentReference` /
`file` / `fileSystemInfo` / `shared` / `cTag` / `eTag`) rather than a
failure.  The download URL is emitted under the literal
`@microsoft.graph.downloadUrl` key. -/
def get_document_with_relations (s : OgmStore) (uid : String) :
    Option (List (String × JVal)) :=
  match s.findDocument uid with
  | none => none
  | some doc =>
    let dref : NodeRef := ⟨.document, doc.uid⟩
    let created_by := relatedUser s dref .createdBy
    let last_modified_by := relatedUser s dref .lastModifiedBy
    let folder := relatedFolder s dref
    let metadata := relatedMetadata s dref
    let version := relatedVersion s dref
    some
      [("name", .str doc.name),
       ("source", .str doc.source),
       ("file_name", optStr doc.file_name),
       ("lastModifiedDate", .str doc.lastModifiedDateTime),
       ("size", .int doc.size),
       ("id", .str doc.uid),
       ("site_id", .str doc.siteId),
       ("drive_id", .str doc.driveId),
       ("label", .str doc.label),
       ("type", .str doc.type),
       ("@microsoft.graph.downloadUrl", .str doc.downloadUrl),
       ("createdDateTime", .str doc.createdDateTime),
       ("lastModifiedDateTime", .str doc.lastModifiedDateTime),
       ("webUrl", .str doc.webUrl),
       ("status", .str doc.status),
       ("createdBy",
         match created_by with
         | some u => .obj [("id", .str u.uid), ("email", .str u.email),
             ("displayName", .str u.displayName)]
         | none => .null),
       ("lastModifiedBy",
         match last_modified_by with
         | some u => .obj [("id", .str u.uid), ("email", .str u.email),
             ("displayName", .str u.displayName)]
         | none => .null),
       ("parentReference",
         match folder with
         | some f => .obj [("id", .str f.uid), ("name", .str f.name),
             ("path", .str f.path), ("driveType", .str f.driveType),
             ("driveId", .str f.driveId), ("siteId", .str f.siteId)]
         | none => .null),
       ("file",
         match metadata with
         | some m => .obj
             [("hashes", .obj [("quickXorHash", .str m.quickXorHash)]),
              ("mimeType", .str m.mimeType)]
         | none => .null),
       ("fileSystemInfo",
         match metadata with
         | some m => .obj
             [("createdDateTime", .str m.createdDateTime),
              ("lastModifiedDateTime", .str m.lastModifiedDateTime)]
         | none => .null),
       ("shared",
         match metadata with
         | some m => .obj [("scope", .str m.sharedScope)]
         | none => .null),
       ("cTag", match version with | some v => .str v.cTag | none => .null),
       ("eTag", match version with | some v => .str v.eTag | none => .null)]

/-- Freshness of a flat payload's keys with respect to a store: none of the
keys the Decompose call writes (document id, the two user ids, the folder
id, the session id, the metadata and version document ids) is already
present, and no relationship already leaves a document node with that id. -/
def FreshFor (s : OgmStore) (d : FlatData) : Prop :=
  (∀ u ∈ s.users, u.uid ≠ d.createdBy_id) ∧
  (∀ u ∈ s.users, u.uid ≠ d.lastModifiedBy_id) ∧
  (∀ f ∈ s.folders, f.uid ≠ d.parentReference_id) ∧
  (∀ x ∈ s.sessions, x.sessionId ≠ d.sessionId) ∧
  (∀ x ∈ s.documents, x.uid ≠ d.id) ∧
  (∀ x ∈ s.fileMetadatas, x.documentId ≠ d.file_documentId) ∧
  (∀ x ∈ s.versions, x.documentId ≠ d.version_documentId) ∧
  (∀ r ∈ s.rels, r.src ≠ ⟨Label.document, d.id⟩)

/-- The export predicted for a freshly decomposed flat payload: every
logical field value of the payload under its documented external key — in
particular the payload's `downloadUrl` under the literal
`@microsoft.graph.downloadUrl` key, the two users as nested
`id`/`email`/`displayName` objects, the folder as `parentReference`, the
metadata as `file`/`fileSystemInfo`/`shared` and the version's tags as
`eTag`/`cTag`. -/
def roundTripExport (d : FlatData) : List (String × JVal) :=
  [("name", .str d.name),
   ("source", .str d.source),
   ("file_name", optStr d.file_name),
   ("lastModifiedDate", .str d.lastModifiedDateTime),
   ("size", .int d.size),
   ("id", .str d.id),
   ("site_id", .str d.siteId),
   ("drive_id", .str d.driveId),
   ("label", .str d.label),
   ("type", .str d.type),
   ("@microsoft.graph.downloadUrl", .str d.downloadUrl),
   ("createdDateTime", .str d.createdDateTime),
   ("lastModifiedDateTime", .str d.lastModifiedDateTime),
   ("webUrl", .str d.webUrl),
   ("status", .str d.status),
   ("createdBy", .obj
      [("id", .str d.createdBy_id), ("email", .str d.createdBy_email),
       ("displayName", .str d.createdBy_displayName)]),
   ("lastModifiedBy", .obj
      [("id", .str d.lastModifiedBy_id), ("email", .str d.lastModifiedBy_email),
       ("displayName", .str d.lastModifiedBy_displayName)]),
   ("parentReference", .obj
      [("id", .str d.parentReference_id), ("name", .str d.parentReference_name),
       ("path", .str d.parentReference_path),
       ("driveType", .str d.parentReference_driveType),
       ("driveId", .str d.parentReference_driveId),
       ("siteId", .str d.parentReference_siteId)]),
   ("file", .obj
      [("hashes", .obj [("quickXorHash", .str d.file_quickXorHash)]),
       ("mimeType", .str d.file_mimeType)]),
   ("fileSystemInfo", .obj
      [("createdDateTime", .str d.file_createdDateTime),
       ("lastModifiedDateTime", .str d.file_lastModifiedDateTime)]),
   ("shared", .obj [("scope", .str d.file_sharedScope)]),
   ("cTag", .str d.version_cTag),
   ("eTag", .str d.version_eTag)]

/-- Sample user `u1`. -/
def uA : ApiUser := ⟨"u1", "a@b.com", "A"⟩

/-- Sample folder `f1`. -/
def fA : ApiFolder := ⟨"f1", "Docs", "/drives/root", "documentLibrary", "dr1", "st1"⟩

/-- Sample document `d1` referencing `u1` and `f1`. -/
def docA : ApiDocument :=
  ⟨"d1", "doc.pdf", "doc.pdf", 10, some "doc.pdf", "sharepoint",
   "application/pdf", 100, 200, "http://w", "http://dl", "dr1", "st1",
   "N/A", none, "f1", "u1", "u1"⟩

/-- A second sample document with an earlier creation timestamp. -/
def docB : ApiDocument :=
  ⟨"d2", "old.pdf", "old.pdf", 7, none, "sharepoint", "application/pdf",
   50, 60, "http://w2", "http://dl2", "dr1", "st1", "N/A", none, "f1",
   "u1", "u1"⟩

/-- A document payload whose `createdBy` and `parentReference_id` reference
keys that exist in no store used with it. -/
def ghostDoc : ApiDocument :=
  ⟨"d9", "ghost.pdf", "ghost.pdf", 1, none, "sharepoint", "application/pdf",
   10, 20, "http://w9", "http://dl9", "dr1", "st1", "N/A", none,
   "f-missing", "u-missing", "u-missing"⟩

/-- Sample file metadata for `d1`. -/
def fmA : ApiFileMetadata := ⟨"d1", "application/pdf", "qx1", "users", 100, 200⟩

/-- Sample version for `d1`. -/
def vA : ApiVersion := ⟨"d1", "e1", "c1", 150, 1⟩

/-- Sample session created by the user displaying as `A`. -/
def sessA : ApiSession := ⟨"s1", "Sess", 100, "A", 1, none, "draft", 0, 0⟩

/-- Sample classifier. -/
def clsA : ApiClassifier := ⟨"c1", "Project", false, none, "p", "d"⟩

/-- A store holding just `u1` and `f1`. -/
def baseStore : ApiStore := ⟨[uA], [fA], [], [], [], [], [], []⟩

/-- A store in which document `d1` exists but has no relationships at all
(so every optional relationship target of the export is absent). -/
def storeDocNoRels : ApiStore := ⟨[uA], [fA], [docA], [], [], [], [], []⟩

/-- A store in which `d1` exists together with its user, folder, metadata
and version nodes and the four incident relationships. -/
def storeC6 : ApiStore :=
  ⟨[uA], [fA], [docA], [], [], [fmA], [vA],
   [⟨.createdBy, ⟨.document, "d1"⟩, ⟨.user, "u1"⟩⟩,
    ⟨.storedIn, ⟨.document, "d1"⟩, ⟨.folder, "f1"⟩⟩,
    ⟨.hasMetadata, ⟨.document, "d1"⟩, ⟨.fileMetadata, "d1"⟩⟩,
    ⟨.hasVersion, ⟨.document, "d1"⟩, ⟨.version, "d1"⟩⟩]⟩

/-- A store holding two documents with distinct creation timestamps. -/
def storeC9 : ApiStore := ⟨[], [], [docB, docA], [], [], [], [], []⟩

/-- Sample flat aggregate payload (distinct creating and modifying users). -/
def flatD : FlatData :=
  ⟨"d1", "doc.pdf", "doc.pdf", 10, some "doc.pdf", "sharepoint",
   "application/pdf", "2024-01-01T00:00:00Z", "2024-01-02T00:00:00Z",
   "http://w", "http://dl", "dr1", "st1", "N/A", none, "1.0",
   "u1", "a@b.com", "A",
   "u2", "b@b.com", "B",
   "f1", "Docs", "/drives/root", "documentLibrary", "dr1", "st1",
   "s1", "Sess", "2024-01-01", "A", 1, none, "draft", 0, 0,
   "d1", "application/pdf", "qx1", "users", "2024-01-01", "2024-01-02",
   "d1", "e1", "c1", "2024-01-03", 1⟩

/-- Sample OGM document node. -/
def docOgm1 : OgmDocument :=
  ⟨"d1", "n", "l", 5, none, "src", "t", "c", "m", "w", "dl", "dr", "st",
   "ok", none, "1"⟩

/-- An OGM store holding only document `d1`, with no relationships. -/
def storeOgm2 : OgmStore := ⟨[], [], [docOgm1], [], [], [], []⟩

/-- Sample OGM user node. -/
def userOgm1 : OgmUser := ⟨"u1", "a@b.com", "A"⟩

/-- Sample OGM folder node. -/
def folderOgm1 : OgmFolder := ⟨"f1", "Docs", "/d", "documentLibrary", "dr1", "st1"⟩

/-- Sample OGM session node. -/
def sessOgm1 : OgmSession := ⟨"s1", "Sess", "2024-01-01", "A", 1, none, "draft", 0, 0⟩

/-- An OGM store already holding the sample user, folder and session. -/
def storeOgm3 : OgmStore := ⟨[userOgm1], [folderOgm1], [], [sessOgm1], [], [], []⟩

/-- A second sample user whose id is absent from `baseStore`. -/
def uB : ApiUser := ⟨"u2", "b@b.com", "B"⟩

/-- A second sample folder whose id is absent from `baseStore`. -/
def fB : ApiFolder := ⟨"f2", "Other", "/drives/other", "documentLibrary", "dr1", "st1"⟩

/-- The Document node written by Decompose step 4, as a function of the
flat payload. -/
def decomposedDoc (d : FlatData) : OgmDocument :=
  ⟨d.id, d.name, d.label, d.size, d.file_name, d.source, d.type,
   d.createdDateTime, d.lastModifiedDateTime, d.webUrl, d.downloadUrl,
   d.driveId, d.siteId, d.status, d.description, d.version⟩

/-- The Folder node written by Decompose's folder upsert when the key is
fresh. -/
def decomposedFolder (d : FlatData) : OgmFolder :=
  ⟨d.parentReference_id, d.parentReference_name, d.parentReference_path,
   d.parentReference_driveType, d.parentReference_driveId,
   d.parentReference_siteId⟩

/-- The Session node written by Decompose's session upsert when the key is
fresh. -/
def decomposedSession (d : FlatData) : OgmSession :=
  ⟨d.sessionId, d.sessionName, d.session_createdAt, d.session_createdBy,
   d.session_fileCount, d.session_completedAt, d.session_status,
   d.session_warnings, d.session_rowCount⟩

/-- The FileMetadata node written by Decompose step 5. -/
def decomposedMetadata (d : FlatData) : OgmFileMetadata :=
  ⟨d.file_documentId, d.file_mimeType, d.file_quickXorHash,
   d.file_sharedScope, d.file_createdDateTime, d.file_lastModifiedDateTime⟩

/-- The Version node written by Decompose step 6. -/
def decomposedVersion (d : FlatData) : OgmVersion :=
  ⟨d.version_documentId, d.version_eTag, d.version_cTag, d.version_timestamp,
   d.version_versionNumber⟩

/-- The six relationships connected by Decompose step 7, in front of the
pre-existing ones. -/
def decomposedRels (d : FlatData) (old : List GraphRel) : List GraphRel :=
  ⟨.inSession, ⟨.document, d.id⟩, ⟨.session, d.sessionId⟩⟩ ::
  ⟨.hasVersion, ⟨.document, d.id⟩, ⟨.version, d.version_documentId⟩⟩ ::
  ⟨.hasMetadata, ⟨.document, d.id⟩, ⟨.fileMetadata, d.file_documentId⟩⟩ ::
  ⟨.storedIn, ⟨.document, d.id⟩, ⟨.folder, d.parentReference_id⟩⟩ ::
  ⟨.lastModifiedBy, ⟨.document, d.id⟩, ⟨.user, d.lastModifiedBy_id⟩⟩ ::
  ⟨.createdBy, ⟨.document, d.id⟩, ⟨.user, d.createdBy_id⟩⟩ :: old

/-- The store produced by a fresh-key Decompose run, parameterized by its
resulting user list (which depends on whether the two user ids coincide). -/
def decomposedStore (s : OgmStore) (d : FlatData) (us : List OgmUser) : OgmStore :=
  ⟨us, decomposedFolder d :: s.folders, decomposedDoc d :: s.documents,
   decomposedSession d :: s.sessions, decomposedMetadata d :: s.fileMetadatas,
   decomposedVersion d :: s.versions, decomposedRels d s.rels⟩

theorem find_key_eq_none {α : Type} {l : List α} {f : α → String} {k : String}
    (h : ∀ y ∈ l, f y ≠ k) : l.find? (fun y => f y == k) = none :=
  List.find?_eq_none.mpr (fun y hy => by simpa using h y hy)

theorem any_key_eq_false {α : Type} {l : List α} {f : α → String} {k : String}
    (h : ∀ y ∈ l, f y ≠ k) : l.any (fun y => f y == k) = false := by
  rw [List.any_eq_false]
  intro y hy
  simpa using h y hy

/-- C3: creating a document whose `createdBy` user id and
`parentReference_id` folder id do not exist does NOT fail with a
400-equivalent referential error as claimed: the `MATCH`-before-`CREATE`
query yields zero rows without raising, so the handler returns 200 echoing
the payload.  The second half of the claim does hold: no Document node is
left behind and the store is unchanged. -/
theorem c3_create_document_missing_refs_silently_succeeds :
    create_document ApiStore.empty ghostDoc = (Response.ok ghostDoc, ApiStore.empty) ∧
    (create_document ApiStore.empty ghostDoc).1.status = 200 :=
  ⟨rfl, rfl⟩

/-- C5: exporting a document id that is not in the store does NOT answer
404: the handler's own `HTTPException(404, "Document not found")` is raised
inside its `try` block, caught by `except Exception`, and re-raised as a 400
wrapping the stringified 404. -/
theorem c5_export_missing_document_returns_400 :
    get_document_json ApiStore.empty "missing" =
      Response.error 400 "Error retrieving document JSON: 404: Document not found" ∧
    (get_document_json ApiStore.empty "missing").status = 400 :=
  ⟨rfl, rfl⟩

/-- C7: updating a document id that is not in the store does NOT fail with
404: the dead `if not result` check never fires (the raw driver result is
always truthy), so the handler returns 200 echoing the payload while the
store is left unchanged. -/
theorem c7_update_missing_document_returns_200_unchanged :
    update_document ApiStore.empty "ghost" docA = (Response.ok docA, ApiStore.empty) ∧
    (update_document ApiStore.empty "ghost" docA).1.status = 200 :=
  ⟨rfl, rfl⟩

/-- C2 counterexample: in the Cypher export endpoint (`get_document_json`),
a document that is present but has none of its optional relationship
targets does not compose to a record with null nested fields — the whole
read fails with a 400 (the four joins are non-optional `MATCH`es). -/
theorem c2_counterexample_export_fails_on_missing_relations :
    docA ∈ storeDocNoRels.documents ∧ docA.id = "d1" ∧
    (get_document_json storeDocNoRels "d1").status = 400 ∧
    (get_document_json storeDocNoRels "d1").isOk = false := by
  refine ⟨by decide, rfl, ?_, ?_⟩ <;> rfl

/-- C8: each of Decompose's get-or-create upserts (User by `uid`, Folder by
`uid`, Session by `sessionId`) is the identity on the store when a node
with the given key already exists: no node is created and the existing
node's stored properties are untouched. -/
theorem c8_upsert_steps_idempotent (s : OgmStore)
    (uid email name fuid fname fpath fdt fdi fsi : String) (x : OgmSession) :
    ((∃ u ∈ s.users, u.uid = uid) → upsertUser s uid email name = s) ∧
    ((∃ f ∈ s.folders, f.uid = fuid) →
      upsertFolder s fuid fname fpath fdt fdi fsi = s) ∧
    ((∃ y ∈ s.sessions, y.sessionId = x.sessionId) → upsertSession s x = s) := by
  refine ⟨?_, ?_, ?_⟩
  · rintro ⟨u, hu, rfl⟩
    rcases hfind : s.users.find? (fun v => v.uid == u.uid) with _ | v
    · exact absurd (by simp : (u.uid == u.uid) = true) (List.find?_eq_none.mp hfind u hu)
    · simp [upsertUser, OgmStore.findUser, hfind]
  · rintro ⟨f, hf, rfl⟩
    rcases hfind : s.folders.find? (fun v => v.uid == f.uid) with _ | v
    · exact absurd (by simp : (f.uid == f.uid) = true) (List.find?_eq_none.mp hfind f hf)
    · simp [upsertFolder, OgmStore.findFolder, hfind]
  · rintro ⟨y, hy, hkey⟩
    rcases hfind : s.sessions.find? (fun v => v.sessionId == x.sessionId) with _ | v
    · exact absurd (by simp [hkey] : (y.sessionId == x.sessionId) = true)
        (List.find?_eq_none.mp hfind y hy)
    · simp [upsertSession, OgmStore.findSession, hfind]

/-- Witness for C8 on a store already holding user `u1`, folder `f1` and
session `s1`: the three upserts, fed fresh property values for the same
keys, leave the store exactly as it was. -/
theorem c8_upsert_steps_idempotent_witness :
    upsertUser storeOgm3 "u1" "new@x" "New" = storeOgm3 ∧
    upsertFolder storeOgm3 "f1" "Other" "/o" "personal" "dr9" "st9" = storeOgm3 ∧
    upsertSession storeOgm3 ⟨"s1", "Other", "2025", "B", 2, none, "done", 1, 1⟩ =
      storeOgm3 := by
  obtain ⟨h1, h2, h3⟩ := c8_upsert_steps_idempotent storeOgm3 "u1" "new@x" "New"
    "f1" "Other" "/o" "personal" "dr9" "st9"
    ⟨"s1", "Other", "2025", "B", 2, none, "done", 1, 1⟩
  exact ⟨h1 (by decide), h2 (by decide), h3 (by decide)⟩

/-- C6: `DELETE /documents/{id}` removes every document node with that id
and every relationship incident on it, and nothing else: the user, folder,
file-metadata, version, session and classifier collections are untouched,
related nodes stay present, a subsequent get of the document fails 404,
and `GET /users/{id}` / `GET /folders/{id}` for the related nodes answer
exactly as before the delete. -/
theorem c6_delete_document_frame (s : ApiStore) (id : String)
    (u : ApiUser) (f : ApiFolder) (fm : ApiFileMetadata) (v : ApiVersion)
    (hdoc : ∃ d ∈ s.documents, d.id = id)
    (hu : u ∈ s.users) (hf : f ∈ s.folders)
    (hfm : fm ∈ s.fileMetadatas) (hv : v ∈ s.versions) :
    (delete_document s id).2.users = s.users ∧
    (delete_document s id).2.folders = s.folders ∧
    (delete_document s id).2.sessions = s.sessions ∧
    (delete_document s id).2.classifiers = s.classifiers ∧
    (delete_document s id).2.fileMetadatas = s.fileMetadatas ∧
    (delete_document s id).2.versions = s.versions ∧
    (delete_document s id).2.documents = s.documents.filter (fun d => ¬ d.id = id) ∧
    (∀ d ∈ (delete_document s id).2.documents, d.id ≠ id) ∧
    get_document (delete_document s id).2 id = Response.error 404 "Document not found" ∧
    (delete_document s id).2.rels = s.rels.filter (fun r => ¬ touchesDocument r id) ∧
    (∀ r ∈ (delete_document s id).2.rels, ¬ touchesDocument r id) ∧
    u ∈ (delete_document s id).2.users ∧ f ∈ (delete_document s id).2.folders ∧
    fm ∈ (delete_document s id).2.fileMetadatas ∧ v ∈ (delete_document s id).2.versions ∧
    get_user (delete_document s id).2 u.id = get_user s u.id ∧
    get_folder (delete_document s id).2 f.id = get_folder s f.id := by
  refine ⟨rfl, rfl, rfl, rfl, rfl, rfl, rfl, ?_, ?_, rfl, ?_, hu, hf, hfm, hv, rfl, rfl⟩
  · intro d hd
    exact of_decide_eq_true (List.mem_filter.mp hd).2
  · have hnone :
        (s.documents.filter (fun d => ¬ d.id = id)).find? (fun d => d.id == id) = none := by
      refine List.find?_eq_none.mpr (fun d hd => ?_)
      have := of_decide_eq_true (List.mem_filter.mp hd).2
      simpa using this
    unfold get_document ApiStore.findDocument delete_document
    dsimp only
    rw [hnone]
  · intro r hr
    exact of_decide_eq_true (List.mem_filter.mp hr).2

/-- Witness for C6 on the store holding `d1` with its user, folder,
metadata and version nodes and the four incident relationships. -/
theorem c6_delete_document_frame_witness :
    (delete_document storeC6 "d1").2.users = storeC6.users ∧
    (delete_document storeC6 "d1").2.folders = storeC6.folders ∧
    (delete_document storeC6 "d1").2.sessions = storeC6.sessions ∧
    (delete_document storeC6 "d1").2.classifiers = storeC6.classifiers ∧
    (delete_document storeC6 "d1").2.fileMetadatas = storeC6.fileMetadatas ∧
    (delete_document storeC6 "d1").2.versions = storeC6.versions ∧
    (delete_document storeC6 "d1").2.documents =
      storeC6.documents.filter (fun d => ¬ d.id = "d1") ∧
    (∀ d ∈ (delete_document storeC6 "d1").2.documents, d.id ≠ "d1") ∧
    get_document (delete_document storeC6 "d1").2 "d1" =
      Response.error 404 "Document not found" ∧
    (delete_document storeC6 "d1").2.rels =
      storeC6.rels.filter (fun r => ¬ touchesDocument r "d1") ∧
    (∀ r ∈ (delete_document storeC6 "d1").2.rels, ¬ touchesDocument r "d1") ∧
    uA ∈ (delete_document storeC6 "d1").2.users ∧
    fA ∈ (delete_document storeC6 "d1").2.folders ∧
    fmA ∈ (delete_document storeC6 "d1").2.fileMetadatas ∧
    vA ∈ (delete_document storeC6 "d1").2.versions ∧
    get_user (delete_document storeC6 "d1").2 uA.id = get_user storeC6 uA.id ∧
    get_folder (delete_document storeC6 "d1").2 fA.id = get_folder storeC6 fA.id :=
  c6_delete_document_frame storeC6 "d1" uA fA fmA vA
    ⟨docA, by decide, by decide⟩ (by decide) (by decide) (by decide) (by decide)

/-- C10: when `POST /documents/` succeeds (the referenced user and folder
are matched and the id is fresh), the resulting store extends the old one
with exactly the new document node — whose `lastModifiedBy` is stored as a
plain string property — and exactly two outgoing relationships from it,
`CREATED_BY` to the matched user and `STORED_IN` to the matched folder;
every relationship not already in the store is one of those two. -/
theorem c10_create_document_exactly_two_relationships (s : ApiStore)
    (d : ApiDocument) (u : ApiUser) (f : ApiFolder)
    (hu : s.findUser d.createdBy = some u)
    (hf : s.findFolder d.parentReference_id = some f)
    (hfresh : ∀ x ∈ s.documents, x.id ≠ d.id) :
    create_document s d =
      (Response.ok d,
       { s with
         documents := d :: s.documents
         rels := ⟨.createdBy, ⟨.document, d.id⟩, ⟨.user, u.id⟩⟩ ::
                 ⟨.storedIn, ⟨.document, d.id⟩, ⟨.folder, f.id⟩⟩ :: s.rels }) ∧
    (create_document s d).2.documents = d :: s.documents ∧
    ((create_document s d).2.documents.head?.map (fun x => x.lastModifiedBy)) =
      some d.lastModifiedBy ∧
    (∀ r ∈ (create_document s d).2.rels, r ∉ s.rels →
      (r.relType = RelType.createdBy ∨ r.relType = RelType.storedIn) ∧
      r.src = ⟨Label.document, d.id⟩) := by
  have hany : s.documents.any (fun x => x.id == d.id) = false :=
    any_key_eq_false hfresh
  have hmain : create_document s d =
      (Response.ok d,
       { s with
         documents := d :: s.documents
         rels := ⟨.createdBy, ⟨.document, d.id⟩, ⟨.user, u.id⟩⟩ ::
                 ⟨.storedIn, ⟨.document, d.id⟩, ⟨.folder, f.id⟩⟩ :: s.rels }) := by
    simp [create_document, hu, hf, hany]
  refine ⟨hmain, by rw [hmain], by rw [hmain]; rfl, ?_⟩
  rw [hmain]
  intro r hr hnot
  rcases List.mem_cons.mp hr with rfl | hr
  · exact ⟨Or.inl rfl, rfl⟩
  · rcases List.mem_cons.mp hr with rfl | hr
    · exact ⟨Or.inr rfl, rfl⟩
    · exact absurd hr hnot

/-- Witness for C10: creating `d1` against the store holding `u1` and `f1`
adds exactly the document node and its two outgoing relationships. -/
theorem c10_create_document_exactly_two_relationships_witness :
    create_document baseStore docA =
      (Response.ok docA,
       { baseStore with
         documents := docA :: baseStore.documents
         rels := ⟨.createdBy, ⟨.document, docA.id⟩, ⟨.user, uA.id⟩⟩ ::
                 ⟨.storedIn, ⟨.document, docA.id⟩, ⟨.folder, fA.id⟩⟩ ::
                 baseStore.rels }) ∧
    (create_document baseStore docA).2.documents = docA :: baseStore.documents ∧
    ((create_document baseStore docA).2.documents.head?.map
      (fun x => x.lastModifiedBy)) = some docA.lastModifiedBy ∧
    (∀ r ∈ (create_document baseStore docA).2.rels, r ∉ baseStore.rels →
      (r.relType = RelType.createdBy ∨ r.relType = RelType.storedIn) ∧
      r.src = ⟨Label.document, docA.id⟩) :=
  c10_create_document_exactly_two_relationships baseStore docA uA fA
    (by decide) (by decide) (by decide)

theorem find_key_cons_self {α : Type} (a : α) (l : List α) (f : α → String) :
    (a :: l).find? (fun y => f y == f a) = some a :=
  List.find?_cons_of_pos _ (by simp)

/-- C4: for each entity kind with a declared uniqueness constraint
(User.id, Folder.id, Classifier.id, Session.sessionId, Document.id), after
a successful create, a second create with the same key — whatever its other
fields — fails with the 400-mapped constraint violation, leaves the store
exactly as after the first call, and the entity stored by the first call is
still retrieved unmodified under its key. -/
theorem c4_duplicate_create_fails (s : ApiStore)
    (u u' : ApiUser) (f f' : ApiFolder) (c c' : ApiClassifier)
    (x x' : ApiSession) (d d' : ApiDocument) (uu uD : ApiUser) (fD : ApiFolder)
    (hu : u'.id = u.id) (hufresh : ∀ y ∈ s.users, y.id ≠ u.id)
    (hf : f'.id = f.id) (hffresh : ∀ y ∈ s.folders, y.id ≠ f.id)
    (hc : c'.id = c.id) (hcfresh : ∀ y ∈ s.classifiers, y.id ≠ c.id)
    (hx : x'.sessionId = x.sessionId) (hxcb : x'.createdBy = x.createdBy)
    (hxu : s.users.find? (fun y => y.displayName == x.createdBy) = some uu)
    (hxfresh : ∀ y ∈ s.sessions, y.sessionId ≠ x.sessionId)
    (hd : d'.id = d.id) (hdcb : d'.createdBy = d.createdBy)
    (hdpr : d'.parentReference_id = d.parentReference_id)
    (hdu : s.findUser d.createdBy = some uD)
    (hdf : s.findFolder d.parentReference_id = some fD)
    (hdfresh : ∀ y ∈ s.documents, y.id ≠ d.id) :
    ((create_user (create_user s u).2 u').1.status = 400 ∧
     (create_user (create_user s u).2 u').2 = (create_user s u).2 ∧
     ((create_user (create_user s u).2 u').2).findUser u.id = some u) ∧
    ((create_folder (create_folder s f).2 f').1.status = 400 ∧
     (create_folder (create_folder s f).2 f').2 = (create_folder s f).2 ∧
     ((create_folder (create_folder s f).2 f').2).findFolder f.id = some f) ∧
    ((create_classifier (create_classifier s c).2 c').1.status = 400 ∧
     (create_classifier (create_classifier s c).2 c').2 = (create_classifier s c).2 ∧
     ((create_classifier (create_classifier s c).2 c').2).findClassifier c.id = some c) ∧
    ((create_session (create_session s x).2 x').1.status = 400 ∧
     (create_session (create_session s x).2 x').2 = (create_session s x).2 ∧
     ((create_session (create_session s x).2 x').2).findSession x.sessionId = some x) ∧
    ((create_document (create_document s d).2 d').1.status = 400 ∧
     (create_document (create_document s d).2 d').2 = (create_document s d).2 ∧
     ((create_document (create_document s d).2 d').2).findDocument d.id = some d) := by
  refine ⟨?_, ?_, ?_, ?_, ?_⟩
  · have h1 : (create_user s u).2 = { s with users := u :: s.users } := by
      simp [create_user, any_key_eq_false hufresh]
    have h2 : ((u :: s.users).any fun y => y.id == u'.id) = true := by simp [hu]
    have h3 : create_user { s with users := u :: s.users } u' =
        (Response.error 400 "Error creating user: ConstraintError",
         { s with users := u :: s.users }) := by
      unfold create_user
      dsimp only
      rw [if_pos h2]
    have hfind : ({ s with users := u :: s.users } : ApiStore).findUser u.id = some u := by
      unfold ApiStore.findUser
      exact find_key_cons_self u s.users ApiUser.id
    rw [h1, h3]
    exact ⟨rfl, rfl, hfind⟩
  · have h1 : (create_folder s f).2 = { s with folders := f :: s.folders } := by
      simp [create_folder, any_key_eq_false hffresh]
    have h2 : ((f :: s.folders).any fun y => y.id == f'.id) = true := by simp [hf]
    have h3 : create_folder { s with folders := f :: s.folders } f' =
        (Response.error 400 "Error creating folder: ConstraintError",
         { s with folders := f :: s.folders }) := by
      unfold create_folder
      dsimp only
      rw [if_pos h2]
    have hfind : ({ s with folders := f :: s.folders } : ApiStore).findFolder f.id
        = some f := by
      unfold ApiStore.findFolder
      exact find_key_cons_self f s.folders ApiFolder.id
    rw [h1, h3]
    exact ⟨rfl, rfl, hfind⟩
  · have h1 : (create_classifier s c).2 = { s with classifiers := c :: s.classifiers } := by
      simp [create_classifier, any_key_eq_false hcfresh]
    have h2 : ((c :: s.classifiers).any fun y => y.id == c'.id) = true := by simp [hc]
    have h3 : create_classifier { s with classifiers := c :: s.classifiers } c' =
        (Response.error 400 "Error creating classifier: ConstraintError",
         { s with classifiers := c :: s.classifiers }) := by
      unfold create_classifier
      dsimp only
      rw [if_pos h2]
    have hfind : ({ s with classifiers := c :: s.classifiers } : ApiStore).findClassifier
        c.id = some c := by
      unfold ApiStore.findClassifier
      exact find_key_cons_self c s.classifiers ApiClassifier.id
    rw [h1, h3]
    exact ⟨rfl, rfl, hfind⟩
  · have h1 : (create_session s x).2 =
        { s with
          sessions := x :: s.sessions
          rels := ⟨.createdBy, ⟨.session, x.sessionId⟩, ⟨.user, uu.id⟩⟩ :: s.rels } := by
      unfold create_session
      rw [hxu, any_key_eq_false hxfresh]
      rfl
    have h2 : ((x :: s.sessions).any fun y => y.sessionId == x'.sessionId) = true := by
      simp [hx]
    have h3 : create_session
        { s with
          sessions := x :: s.sessions
          rels := ⟨.createdBy, ⟨.session, x.sessionId⟩, ⟨.user, uu.id⟩⟩ :: s.rels } x' =
        (Response.error 400 "Error creating session: ConstraintError",
         { s with
           sessions := x :: s.sessions
           rels := ⟨.createdBy, ⟨.session, x.sessionId⟩, ⟨.user, uu.id⟩⟩ :: s.rels }) := by
      unfold create_session
      dsimp only
      rw [hxcb, hxu]
      dsimp only
      rw [if_pos h2]
    have hfind : ({ s with
          sessions := x :: s.sessions
          rels := ⟨.createdBy, ⟨.session, x.sessionId⟩, ⟨.user, uu.id⟩⟩ :: s.rels } :
        ApiStore).findSession x.sessionId = some x := by
      unfold ApiStore.findSession
      exact find_key_cons_self x s.sessions ApiSession.sessionId
    rw [h1, h3]
    exact ⟨rfl, rfl, hfind⟩
  · have hdu' : s.users.find? (fun y => y.id == d.createdBy) = some uD := hdu
    have hdf' : s.folders.find? (fun y => y.id == d.parentReference_id) = some fD := hdf
    have h1 : (create_document s d).2 =
        { s with
          documents := d :: s.documents
          rels := ⟨.createdBy, ⟨.document, d.id⟩, ⟨.user, uD.id⟩⟩ ::
                  ⟨.storedIn, ⟨.document, d.id⟩, ⟨.folder, fD.id⟩⟩ :: s.rels } := by
      unfold create_document ApiStore.findUser ApiStore.findFolder
      rw [hdu', hdf']
      dsimp only
      rw [if_neg]
      rw [any_key_eq_false hdfresh]
      exact Bool.false_ne_true
    have h2 : ((d :: s.documents).any fun y => y.id == d'.id) = true := by simp [hd]
    have h3 : create_document
        { s with
          documents := d :: s.documents
          rels := ⟨.createdBy, ⟨.document, d.id⟩, ⟨.user, uD.id⟩⟩ ::
                  ⟨.storedIn, ⟨.document, d.id⟩, ⟨.folder, fD.id⟩⟩ :: s.rels } d' =
        (Response.error 400 "Error creating document: ConstraintError",
         { s with
           documents := d :: s.documents
           rels := ⟨.createdBy, ⟨.document, d.id⟩, ⟨.user, uD.id⟩⟩ ::
                   ⟨.storedIn, ⟨.document, d.id⟩, ⟨.folder, fD.id⟩⟩ :: s.rels }) := by
      unfold create_document ApiStore.findUser ApiStore.findFolder
      dsimp only
      rw [hdcb, hdpr, hdu', hdf']
      dsimp only
      rw [if_pos h2]
    have hfind : ({ s with
          documents := d :: s.documents
          rels := ⟨.createdBy, ⟨.document, d.id⟩, ⟨.user, uD.id⟩⟩ ::
                  ⟨.storedIn, ⟨.document, d.id⟩, ⟨.folder, fD.id⟩⟩ :: s.rels } :
        ApiStore).findDocument d.id = some d := by
      unfold ApiStore.findDocument
      exact find_key_cons_self d s.documents ApiDocument.id
    rw [h1, h3]
    exact ⟨rfl, rfl, hfind⟩

/-- Witness for C4 on the store holding `u1` and `f1`: re-creating the same
user, folder, classifier, session and document a second time fails with 400
each time, changes nothing, and the first-created entity is still returned
by its key. -/
theorem c4_duplicate_create_fails_witness :
    ((create_user (create_user baseStore uB).2 uB).1.status = 400 ∧
     (create_user (create_user baseStore uB).2 uB).2 = (create_user baseStore uB).2 ∧
     ((create_user (create_user baseStore uB).2 uB).2).findUser uB.id = some uB) ∧
    ((create_folder (create_folder baseStore fB).2 fB).1.status = 400 ∧
     (create_folder (create_folder baseStore fB).2 fB).2 =
       (create_folder baseStore fB).2 ∧
     ((create_folder (create_folder baseStore fB).2 fB).2).findFolder fB.id =
       some fB) ∧
    ((create_classifier (create_classifier baseStore clsA).2 clsA).1.status = 400 ∧
     (create_classifier (create_classifier baseStore clsA).2 clsA).2 =
       (create_classifier baseStore clsA).2 ∧
     ((create_classifier (create_classifier baseStore clsA).2 clsA).2).findClassifier
       clsA.id = some clsA) ∧
    ((create_session (create_session baseStore sessA).2 sessA).1.status = 400 ∧
     (create_session (create_session baseStore sessA).2 sessA).2 =
       (create_session baseStore sessA).2 ∧
     ((create_session (create_session baseStore sessA).2 sessA).2).findSession
       sessA.sessionId = some sessA) ∧
    ((create_document (create_document baseStore docA).2 docA).1.status = 400 ∧
     (create_document (create_document baseStore docA).2 docA).2 =
       (create_document baseStore docA).2 ∧
     ((create_document (create_document baseStore docA).2 docA).2).findDocument
       docA.id = some docA) :=
  c4_duplicate_create_fails baseStore uB uB fB fB clsA clsA sessA sessA docA docA
    uA uA fA rfl (by decide) rfl (by decide) rfl (by decide) rfl rfl (by decide)
    (by decide) rfl rfl rfl (by decide) (by decide) (by decide)

/-- C9: for an in-range `limit` (1–100) and non-negative `offset`, the list
endpoint succeeds with at most `limit` documents ordered descending by
`createdDateTime` (the stable sort field), and the result is uniquely
determined by the store and the two parameters (so repeated calls with no
intervening writes return the same sequence); any out-of-range `limit` or
negative `offset` is rejected with a 422 validation error instead of
returning results. -/
theorem c9_list_documents_pagination (s : ApiStore) (limit offset : Int) :
    (1 ≤ limit → limit ≤ 100 → 0 ≤ offset →
      ∃ docs, list_documents s limit offset = Response.ok docs ∧
        docs.length ≤ limit.toNat ∧
        docs.Sorted docDesc ∧
        (∀ docs', list_documents s limit offset = Response.ok docs' →
          docs' = docs)) ∧
    (¬ (1 ≤ limit ∧ limit ≤ 100 ∧ 0 ≤ offset) →
      list_documents s limit offset = Response.error 422 "Input validation error") := by
  constructor
  · intro h1 h2 h3
    have heq : list_documents s limit offset =
        Response.ok
          (((s.documents.insertionSort docDesc).drop offset.toNat).take limit.toNat) := by
      unfold list_documents
      rw [if_pos ⟨h1, h2, h3⟩]
    refine ⟨_, heq, ?_, ?_, ?_⟩
    · simpa using Nat.min_le_left limit.toNat
        ((s.documents.insertionSort docDesc).drop offset.toNat).length
    · exact List.Pairwise.sublist
        ((List.take_sublist _ _).trans (List.drop_sublist _ _))
        (List.sorted_insertionSort docDesc s.documents)
    · intro docs' h
      rw [heq] at h
      injection h with h'
      exact h'.symm
  · intro hbad
    unfold list_documents
    rw [if_neg hbad]

/-- Witness for C9 on the two-document store: `limit = 1, offset = 0`
succeeds with at most one document in descending creation order, while
`limit = 0` is rejected with the validation error. -/
theorem c9_list_documents_pagination_witness :
    (∃ docs, list_documents storeC9 1 0 = Response.ok docs ∧
      docs.length ≤ (1 : Int).toNat ∧
      docs.Sorted docDesc ∧
      (∀ docs', list_documents storeC9 1 0 = Response.ok docs' → docs' = docs)) ∧
    list_documents storeC9 0 0 = Response.error 422 "Input validation error" :=
  ⟨(c9_list_documents_pagination storeC9 1 0).1 (by decide) (by decide) (by decide),
   (c9_list_documents_pagination storeC9 0 0).2 (by decide)⟩

/-- C2 (amended to the OGM composer): for every document present in the
store, `get_document_with_relations` succeeds, and each absent optional
relationship target independently turns the corresponding nested field of
the composed export into null — `createdBy`, `lastModifiedBy`,
`parentReference`, the metadata-driven `file` / `fileSystemInfo` /
`shared`, and the version-driven `cTag` / `eTag` — instead of the read
failing. -/
theorem c2_compose_missing_targets_become_null (s : OgmStore) (uid : String)
    (doc : OgmDocument) (h : s.findDocument uid = some doc) :
    ∃ out, get_document_with_relations s uid = some out ∧
      (relatedUser s ⟨.document, doc.uid⟩ .createdBy = none →
        out.lookup "createdBy" = some JVal.null) ∧
      (relatedUser s ⟨.document, doc.uid⟩ .lastModifiedBy = none →
        out.lookup "lastModifiedBy" = some JVal.null) ∧
      (relatedFolder s ⟨.document, doc.uid⟩ = none →
        out.lookup "parentReference" = some JVal.null) ∧
      (relatedMetadata s ⟨.document, doc.uid⟩ = none →
        out.lookup "file" = some JVal.null ∧
        out.lookup "fileSystemInfo" = some JVal.null ∧
        out.lookup "shared" = some JVal.null) ∧
      (relatedVersion s ⟨.document, doc.uid⟩ = none →
        out.lookup "cTag" = some JVal.null ∧
        out.lookup "eTag" = some JVal.null) := by
  unfold get_document_with_relations
  rw [h]
  refine ⟨_, rfl, ?_, ?_, ?_, ?_, ?_⟩
  · intro hnone
    simp [List.lookup, hnone]
  · intro hnone
    simp [List.lookup, hnone]
  · intro hnone
    simp [List.lookup, hnone]
  · intro hnone
    refine ⟨?_, ?_, ?_⟩ <;> simp [List.lookup, hnone]
  · intro hnone
    refine ⟨?_, ?_⟩ <;> simp [List.lookup, hnone]

/-- Witness for C2 on a store holding a single document with no
relationships at all: composition succeeds and every optional nested field
is null. -/
theorem c2_compose_missing_targets_become_null_witness :
    ∃ out, get_document_with_relations storeOgm2 "d1" = some out ∧
      out.lookup "createdBy" = some JVal.null ∧
      out.lookup "lastModifiedBy" = some JVal.null ∧
      out.lookup "parentReference" = some JVal.null ∧
      out.lookup "file" = some JVal.null ∧
      out.lookup "fileSystemInfo" = some JVal.null ∧
      out.lookup "shared" = some JVal.null ∧
      out.lookup "cTag" = some JVal.null ∧
      out.lookup "eTag" = some JVal.null := by
  obtain ⟨out, heq, h1, h2, h3, h4, h5⟩ :=
    c2_compose_missing_targets_become_null storeOgm2 "d1" docOgm1 rfl
  exact ⟨out, heq, h1 rfl, h2 rfl, h3 rfl, (h4 rfl).1, (h4 rfl).2.1,
    (h4 rfl).2.2, (h5 rfl).1, (h5 rfl).2⟩

theorem compose_after_decompose (s : OgmStore) (d : FlatData) (us : List OgmUser)
    (hcb : us.find? (fun u => u.uid == d.createdBy_id) =
      some ⟨d.createdBy_id, d.createdBy_email, d.createdBy_displayName⟩)
    (hlm : us.find? (fun u => u.uid == d.lastModifiedBy_id) =
      some ⟨d.lastModifiedBy_id, d.lastModifiedBy_email, d.lastModifiedBy_displayName⟩) :
    get_document_with_relations (decomposedStore s d us) d.id =
      some (roundTripExport d) := by
  have hdoc : (decomposedStore s d us).findDocument d.id = some (decomposedDoc d) := by
    unfold OgmStore.findDocument decomposedStore
    dsimp only
    exact List.find?_cons_of_pos _ (by simp [decomposedDoc])
  have hrcb : relatedUser (decomposedStore s d us) ⟨Label.document, d.id⟩
      RelType.createdBy =
      some ⟨d.createdBy_id, d.createdBy_email, d.createdBy_displayName⟩ := by
    unfold relatedUser OgmStore.relFrom OgmStore.findUser decomposedStore decomposedRels
    dsimp only
    rw [List.find?_cons_of_neg _ (by simp), List.find?_cons_of_neg _ (by simp),
        List.find?_cons_of_neg _ (by simp), List.find?_cons_of_neg _ (by simp),
        List.find?_cons_of_neg _ (by simp), List.find?_cons_of_pos _ (by simp)]
    dsimp only [Option.map, Option.bind]
    exact hcb
  have hrlm : relatedUser (decomposedStore s d us) ⟨Label.document, d.id⟩
      RelType.lastModifiedBy =
      some ⟨d.lastModifiedBy_id, d.lastModifiedBy_email, d.lastModifiedBy_displayName⟩ := by
    unfold relatedUser OgmStore.relFrom OgmStore.findUser decomposedStore decomposedRels
    dsimp only
    rw [List.find?_cons_of_neg _ (by simp), List.find?_cons_of_neg _ (by simp),
        List.find?_cons_of_neg _ (by simp), List.find?_cons_of_neg _ (by simp),
        List.find?_cons_of_pos _ (by simp)]
    dsimp only [Option.map, Option.bind]
    exact hlm
  have hrfol : relatedFolder (decomposedStore s d us) ⟨Label.document, d.id⟩ =
      some (decomposedFolder d) := by
    unfold relatedFolder OgmStore.relFrom OgmStore.findFolder decomposedStore decomposedRels
    dsimp only
    rw [List.find?_cons_of_neg _ (by simp), List.find?_cons_of_neg _ (by simp),
        List.find?_cons_of_neg _ (by simp), List.find?_cons_of_pos _ (by simp)]
    dsimp only [Option.map, Option.bind]
    exact List.find?_cons_of_pos _ (by simp [decomposedFolder])
  have hrfm : relatedMetadata (decomposedStore s d us) ⟨Label.document, d.id⟩ =
      some (decomposedMetadata d) := by
    unfold relatedMetadata OgmStore.relFrom decomposedStore decomposedRels
    dsimp only
    rw [List.find?_cons_of_neg _ (by simp), List.find?_cons_of_neg _ (by simp),
        List.find?_cons_of_pos _ (by simp)]
    dsimp only [Option.map, Option.bind]
    exact List.find?_cons_of_pos _ (by simp [decomposedMetadata])
  have hrver : relatedVersion (decomposedStore s d us) ⟨Label.document, d.id⟩ =
      some (decomposedVersion d) := by
    unfold relatedVersion OgmStore.relFrom decomposedStore decomposedRels
    dsimp only
    rw [List.find?_cons_of_neg _ (by simp), List.find?_cons_of_pos _ (by simp)]
    dsimp only [Option.map, Option.bind]
    exact List.find?_cons_of_pos _ (by simp [decomposedVersion])
  unfold get_document_with_relations
  rw [hdoc]
  dsimp only [decomposedDoc]
  rw [hrcb, hrlm, hrfol, hrfm, hrver]
  rfl

/-- C1: for every flat aggregate payload whose keys are absent from the
store (and whose two user blocks agree when they name the same identity),
Decompose followed by Compose on the payload's document id succeeds and
reproduces every logical field value of the payload modulo the documented
renames — in particular the payload's `downloadUrl` comes back under the
literal `@microsoft.graph.downloadUrl` key. -/
theorem c1_decompose_compose_round_trip (s : OgmStore) (d : FlatData)
    (hfr : FreshFor s d)
    (hsame : d.createdBy_id = d.lastModifiedBy_id →
      d.createdBy_email = d.lastModifiedBy_email ∧
      d.createdBy_displayName = d.lastModifiedBy_displayName) :
    ∃ s', create_complete_document_structure s d = Except.ok s' ∧
      get_document_with_relations s' d.id = some (roundTripExport d) ∧
      (roundTripExport d).lookup "@microsoft.graph.downloadUrl" =
        some (JVal.str d.downloadUrl) := by
  obtain ⟨hU1, hU2, hF, hS, hD, hM, hV, hR⟩ := hfr
  have e1 : upsertUser s d.createdBy_id d.createdBy_email d.createdBy_displayName =
      { s with users :=
          ⟨d.createdBy_id, d.createdBy_email, d.createdBy_displayName⟩ :: s.users } := by
    unfold upsertUser OgmStore.findUser
    rw [find_key_eq_none hU1]
  by_cases hid : d.createdBy_id = d.lastModifiedBy_id
  · have e2 : upsertUser
        { s with users :=
            ⟨d.createdBy_id, d.createdBy_email, d.createdBy_displayName⟩ :: s.users }
        d.lastModifiedBy_id d.lastModifiedBy_email d.lastModifiedBy_displayName =
        { s with users :=
            ⟨d.createdBy_id, d.createdBy_email, d.createdBy_displayName⟩ :: s.users } := by
      unfold upsertUser OgmStore.findUser
      dsimp only
      rw [List.find?_cons_of_pos _ (by simp [hid])]
    have e3 : upsertFolder
        { s with users :=
            ⟨d.createdBy_id, d.createdBy_email, d.createdBy_displayName⟩ :: s.users }
        d.parentReference_id d.parentReference_name d.parentReference_path
        d.parentReference_driveType d.parentReference_driveId d.parentReference_siteId =
        { s with
          users :=
            ⟨d.createdBy_id, d.createdBy_email, d.createdBy_displayName⟩ :: s.users
          folders := decomposedFolder d :: s.folders } := by
      unfold upsertFolder OgmStore.findFolder
      dsimp only
      rw [find_key_eq_none hF]
      rfl
    have e4 : upsertSession
        { s with
          users :=
            ⟨d.createdBy_id, d.createdBy_email, d.createdBy_displayName⟩ :: s.users
          folders := decomposedFolder d :: s.folders }
        ⟨d.sessionId, d.sessionName, d.session_createdAt, d.session_createdBy,
         d.session_fileCount, d.session_completedAt, d.session_status,
         d.session_warnings, d.session_rowCount⟩ =
        { s with
          users :=
            ⟨d.createdBy_id, d.createdBy_email, d.createdBy_displayName⟩ :: s.users
          folders := decomposedFolder d :: s.folders
          sessions := decomposedSession d :: s.sessions } := by
      unfold upsertSession OgmStore.findSession
      dsimp only
      rw [find_key_eq_none hS]
      rfl
    have hdec : create_complete_document_structure s d =
        Except.ok (decomposedStore s d
          (⟨d.createdBy_id, d.createdBy_email, d.createdBy_displayName⟩ :: s.users)) := by
      simp only [create_complete_document_structure]
      rw [e1, e2, e3, e4]
      dsimp only
      rw [any_key_eq_false hD, any_key_eq_false hM, any_key_eq_false hV]
      rfl
    have hcb : (⟨d.createdBy_id, d.createdBy_email, d.createdBy_displayName⟩ ::
        s.users).find? (fun u => u.uid == d.createdBy_id) =
        some ⟨d.createdBy_id, d.createdBy_email, d.createdBy_displayName⟩ :=
      List.find?_cons_of_pos _ (by simp)
    have hlm : (⟨d.createdBy_id, d.createdBy_email, d.createdBy_displayName⟩ ::
        s.users).find? (fun u => u.uid == d.lastModifiedBy_id) =
        some ⟨d.lastModifiedBy_id, d.lastModifiedBy_email,
          d.lastModifiedBy_displayName⟩ := by
      rw [List.find?_cons_of_pos _ (by simp [hid])]
      obtain ⟨he, hn⟩ := hsame hid
      rw [hid, he, hn]
    exact ⟨_, hdec, compose_after_decompose s d _ hcb hlm, rfl⟩
  · have e2 : upsertUser
        { s with users :=
            ⟨d.createdBy_id, d.createdBy_email, d.createdBy_displayName⟩ :: s.users }
        d.lastModifiedBy_id d.lastModifiedBy_email d.lastModifiedBy_displayName =
        { s with users :=
            ⟨d.lastModifiedBy_id, d.lastModifiedBy_email, d.lastModifiedBy_displayName⟩ ::
            ⟨d.createdBy_id, d.createdBy_email, d.createdBy_displayName⟩ :: s.users } := by
      unfold upsertUser OgmStore.findUser
      dsimp only
      rw [List.find?_cons_of_neg _ (by simpa using hid), find_key_eq_none hU2]
    have e3 : upsertFolder
        { s with users :=
            ⟨d.lastModifiedBy_id, d.lastModifiedBy_email, d.lastModifiedBy_displayName⟩ ::
            ⟨d.createdBy_id, d.createdBy_email, d.createdBy_displayName⟩ :: s.users }
        d.parentReference_id d.parentReference_name d.parentReference_path
        d.parentReference_driveType d.parentReference_driveId d.parentReference_siteId =
        { s with
          users :=
            ⟨d.lastModifiedBy_id, d.lastModifiedBy_email, d.lastModifiedBy_displayName⟩ ::
            ⟨d.createdBy_id, d.createdBy_email, d.createdBy_displayName⟩ :: s.users
          folders := decomposedFolder d :: s.folders } := by
      unfold upsertFolder OgmStore.findFolder
      dsimp only
      rw [find_key_eq_none hF]
      rfl
    have e4 : upsertSession
        { s with
          users :=
            ⟨d.lastModifiedBy_id, d.lastModifiedBy_email, d.lastModifiedBy_displayName⟩ ::
            ⟨d.createdBy_id, d.createdBy_email, d.createdBy_displayName⟩ :: s.users
          folders := decomposedFolder d :: s.folders }
        ⟨d.sessionId, d.sessionName, d.session_createdAt, d.session_createdBy,
         d.session_fileCount, d.session_completedAt, d.session_status,
         d.session_warnings, d.session_rowCount⟩ =
        { s with
          users :=
            ⟨d.lastModifiedBy_id, d.lastModifiedBy_email, d.lastModifiedBy_displayName⟩ ::
            ⟨d.createdBy_id, d.createdBy_email, d.createdBy_displayName⟩ :: s.users
          folders := decomposedFolder d :: s.folders
          sessions := decomposedSession d :: s.sessions } := by
      unfold upsertSession OgmStore.findSession
      dsimp only
      rw [find_key_eq_none hS]
      rfl
    have hdec : create_complete_document_structure s d =
        Except.ok (decomposedStore s d
          (⟨d.lastModifiedBy_id, d.lastModifiedBy_email, d.lastModifiedBy_displayName⟩ ::
           ⟨d.createdBy_id, d.createdBy_email, d.createdBy_displayName⟩ :: s.users)) := by
      simp only [create_complete_document_structure]
      rw [e1, e2, e3, e4]
      dsimp only
      rw [any_key_eq_false hD, any_key_eq_false hM, any_key_eq_false hV]
      rfl
    have hcb : (⟨d.lastModifiedBy_id, d.lastModifiedBy_email,
          d.lastModifiedBy_displayName⟩ ::
        ⟨d.createdBy_id, d.createdBy_email, d.createdBy_displayName⟩ ::
        s.users).find? (fun u => u.uid == d.createdBy_id) =
        some ⟨d.createdBy_id, d.createdBy_email, d.createdBy_displayName⟩ := by
      rw [List.find?_cons_of_neg _ (by simp; exact fun h => hid h.symm)]
      exact List.find?_cons_of_pos _ (by simp)
    have hlm : (⟨d.lastModifiedBy_id, d.lastModifiedBy_email,
          d.lastModifiedBy_displayName⟩ ::
        ⟨d.createdBy_id, d.createdBy_email, d.createdBy_displayName⟩ ::
        s.users).find? (fun u => u.uid == d.lastModifiedBy_id) =
        some ⟨d.lastModifiedBy_id, d.lastModifiedBy_email,
          d.lastModifiedBy_displayName⟩ :=
      List.find?_cons_of_pos _ (by simp)
    exact ⟨_, hdec, compose_after_decompose s d _ hcb hlm, rfl⟩

/-- Witness for C1: decomposing the sample flat payload into the empty
store and composing `d1` back yields exactly the predicted export, with the
download URL under its literal prefixed key. -/
theorem c1_decompose_compose_round_trip_witness :
    ∃ s', create_complete_document_structure OgmStore.empty flatD = Except.ok s' ∧
      get_document_with_relations s' flatD.id = some (roundTripExport flatD) ∧
      (roundTripExport flatD).lookup "@microsoft.graph.downloadUrl" =
        some (JVal.str flatD.downloadUrl) :=
  c1_decompose_compose_round_trip OgmStore.empty flatD
    (by refine ⟨?_, ?_, ?_, ?_, ?_, ?_, ?_, ?_⟩ <;> simp [OgmStore.empty])
    (fun h => absurd h (by decide))
